import Mathlib

/-!
Verification development for the CameraOverlay application (src/app.py).

The per-tick frame pipeline, the zoom transform, the placeholder renderer
and the cutout/segmenter state machine of `CameraOverlay` are embedded
shallowly below.  Pixel buffers are modelled as total functions from
coordinates to 8-bit channel tuples; the external world that a tick
consults (the capture device, the filesystem/model assets, the mediapipe
segmenter, OpenCV's `resize`) is passed in as a `TickEnv` record, so that
theorems quantify over every possible behaviour of those collaborators.
Python floats appearing in the code (`zoom = value / 100.0`, mask values
in `[0, 1]`, the `0.5` threshold) are modelled as exact rationals.
-/

namespace CameraApp

/-- A raw OpenCV frame: row-major `height × width` buffer of 3-channel
8-bit pixels, in BGR channel order as delivered by `cap.read()`.
`pix x y` is the pixel at column `x`, row `y`. -/
structure Frame where
  width : Nat
  height : Nat
  pix : Nat → Nat → Nat × Nat × Nat

/-- A 4-channel output bitmap as built at app.py:211 (`np.dstack((rgb, alpha))`):
RGB colour planes plus an alpha plane. -/
structure RGBAImage where
  width : Nat
  height : Nat
  rgb : Nat → Nat → Nat × Nat × Nat
  alpha : Nat → Nat → Nat

/-- A segmentation mask (`results.segmentation_mask`): per-pixel value in
`[0,1]`, modelled as an exact rational. -/
def Mask : Type := Nat → Nat → ℚ

/-- `cv2.cvtColor(frame, cv2.COLOR_BGR2RGB)` (app.py:205, 216, 445):
pure channel reordering, swapping the first and third channels. -/
def cvtBGR2RGB (f : Frame) : Frame :=
  { width := f.width
    height := f.height
    pix := fun x y =>
      let p := f.pix x y
      (p.2.2, p.2.1, p.1) }

/-- `cv2.flip(frame, 1)` (app.py:197): horizontal mirror about the
vertical axis. -/
def hflip (f : Frame) : Frame :=
  { width := f.width
    height := f.height
    pix := fun x y => f.pix (f.width - 1 - x) y }

/-- The mask→alpha binarization `alpha = (mask > 0.5).astype(np.uint8) * 255`
(app.py:210). -/
def binarizeAlpha (mask : Mask) : Nat → Nat → Nat :=
  fun x y => if 1 / 2 < mask x y then 255 else 0

/-- The masked compositing step `rgba = np.dstack((rgb, alpha))`
(app.py:210-211): RGB planes are taken from `rgb` unchanged, the alpha
plane is the binarized mask. -/
def composeRGBA (rgb : Frame) (mask : Mask) : RGBAImage :=
  { width := rgb.width
    height := rgb.height
    rgb := rgb.pix
    alpha := binarizeAlpha mask }

/-- `CameraOverlay._apply_zoom` (app.py:324-334) as a function of the zoom
factor `zoom = self.zoom_bar.value() / 100.0` and the frame.  Python's
`int(w / zoom)` truncates toward zero, which for the non-negative
quotients here is the floor. -/
def apply_zoom (zoom : ℚ) (f : Frame) : Frame :=
  if zoom ≤ 1 then f
  else
    let w := f.width
    let h := f.height
    let new_w := max 1 (Int.toNat ⌊(w : ℚ) / zoom⌋)
    let new_h := max 1 (Int.toNat ⌊(h : ℚ) / zoom⌋)
    let x1 := (w - new_w) / 2
    let y1 := (h - new_h) / 2
    { width := new_w
      height := new_h
      pix := fun x y => f.pix (x1 + x) (y1 + y) }

/-! ### Placeholder text rendering (`_render_placeholder`, app.py:435-449) -/

/-- Python `str.splitlines` restricted to the line terminator `'\n'`
(the only terminator occurring in the application's messages): maximal
runs of non-newline characters, with no trailing empty line after a
final terminator, and `[]` for the empty string.  The first argument is
the remaining input, the second the reversed current line. -/
def splitlinesAux : List Char → List Char → List String
  | [], acc => if acc.isEmpty then [] else [String.mk acc.reverse]
  | c :: rest, acc =>
      if c = '\n' then String.mk acc.reverse :: splitlinesAux rest []
      else splitlinesAux rest (c :: acc)

/-- `message.splitlines()` for the messages of this application. -/
def pysplitlines (s : String) : List String :=
  splitlinesAux s.data []

/-- `lines = message.splitlines() if message else ["error"]` (app.py:440):
an empty message is falsy in Python. -/
def placeholderLines (message : String) : List String :=
  if message = "" then ["error"] else pysplitlines message

/-- The `for line in lines[:6]` loop body of `_render_placeholder`
(app.py:441-444): each drawn line is `line[:64]` at ordinate `y`, and `y`
advances by 26 per line.  Returns the list of `cv2.putText` draw
operations as (text, y) pairs. -/
def placeholderLoop : List String → Nat → List (String × Nat)
  | [], _ => []
  | l :: ls, y => (l.take 64, y) :: placeholderLoop ls (y + 26)

/-- The full sequence of text draw operations performed by
`_render_placeholder message` onto the zeroed (solid black) background
frame: the first 6 lines, truncated, starting at `y = 24`. -/
def render_placeholder_ops (message : String) : List (String × Nat) :=
  placeholderLoop ((placeholderLines message).take 6) 24

/-! ### Error messages (string literals in src/app.py) -/

/-- Fallback placeholder message in the device-unavailable branch (app.py:190). -/
def defaultCameraMsg : String := "카메라를 열 수 없습니다."

/-- Message set when camera permission is denied/restricted (app.py:240, 273). -/
def permissionDeniedMsg : String := "카메라 권한이 꺼져 있습니다. 시스템 설정에서 허용하세요."

/-- Message set when neither capture backend opens (app.py:248). -/
def checkPermissionMsg : String := "카메라 권한을 확인해 주세요."

/-- Message rendered by the catch-all exception handler (app.py:224). -/
def genericErrorMsg : String := "오류가 발생했습니다. 로그를 확인하세요."

/-- Message built at app.py:382-387 when the frozen-app model search fails;
`res` and `fw` are the two searched directories. -/
def modelNotFoundMsg (res fw : String) : String :=
  "mediapipe model not found.\n" ++ "searched: " ++ res ++ "\n"
    ++ "searched: " ++ fw ++ "\n" ++ "rebuild the app."

/-- Message set on `FileNotFoundError` during segmenter construction (app.py:394-397). -/
def modelMissingMsg : String := "mediapipe model missing.\n" ++ "rebuild the app."

/-- Message set on any other segmenter construction failure (app.py:402). -/
def segInitFailedMsg : String := "배경 제거 초기화에 실패했습니다."

/-- Python's `x or y` on an optional string: `None` and the empty string
are falsy (used at app.py:190). -/
def pyOrElse (o : Option String) (d : String) : String :=
  match o with
  | some m => if m = "" then d else m
  | none => d

/-! ### Application state and external environment -/

/-- The label shape (`self.shape`, app.py:37, 306-309). -/
inductive Shape where
  | square
  | circle
deriving DecidableEq

/-- What the preview label currently displays (`self.label`'s pixmap). -/
inductive Display where
  | empty
  | rgbImage (f : Frame)
  | rgbaImage (img : RGBAImage)
  | placeholder (msg : String)

/-- The mutable fields of `CameraOverlay` that the claims concern.
`cap = true` means `self.cap` holds a capture object (not `None`);
`segmenter = true` means `self.segmenter` is constructed (not `None`);
`labelW`/`labelH` are the fixed label dimensions read at app.py:198-199. -/
structure AppState where
  shape : Shape
  cutout_enabled : Bool
  segmenter : Bool
  camera_error_message : Option String
  cap : Bool
  open_retry_counter : Nat
  labelW : Nat
  labelH : Nat
  displayed : Display

/-- Outcome of `_open_camera` (app.py:238-250), determined by the platform
permission state and the two capture backends. -/
inductive OpenOutcome where
  | permissionDenied
  | opened
  | failed
deriving DecidableEq

/-- Outcome of the segmenter-construction attempt inside
`_ensure_segmenter_ready` (app.py:360-404), determined by the
filesystem/model assets: either `SelfieSegmentation` is constructed, or
the frozen-app asset search fails (with the two searched directories),
or construction raises `FileNotFoundError`, or it raises some other
exception. -/
inductive SegInitOutcome where
  | constructed
  | modelNotFound (res fw : String)
  | fileNotFound
  | initError

/-- The external world consulted during one tick (and during a cutout
toggle): capture-device liveness and read result, an injected unexpected
exception in the transform/composite stage, the zoom scrollbar value
(`self.zoom_bar.value()`), OpenCV's `resize` viewed as an arbitrary
function, the permission/open outcomes, any message set by
`_ensure_camera_permission`, the segmenter-construction outcome, and the
mask produced by `self.segmenter.process` (`none` when `results` is
falsy or `segmentation_mask` is `None`). -/
structure TickEnv where
  capLive : Bool
  readResult : Option Frame
  raiseMid : Bool
  zoomValue : Nat
  resize : Nat → Nat → Frame → Frame
  openOutcome : OpenOutcome
  permMsg : Option String
  segInit : SegInitOutcome
  segMask : Option Mask

/-- Per-tick observations: whether this tick re-checked permission and
attempted a reopen (app.py:187-189), and the message of the placeholder
rendered this tick, if any. -/
structure Obs where
  reopenAttempted : Bool
  placeholderRendered : Option String
deriving DecidableEq

/-- `_render_placeholder` (app.py:435-449) at the state level: the label
now shows the placeholder bitmap for `msg` (whose drawn text is
`render_placeholder_ops msg`). -/
def render_placeholder (msg : String) (s : AppState) : AppState :=
  { s with displayed := Display.placeholder msg }

/-- `_ensure_camera_permission` (app.py:252-286): it only ever updates
`camera_error_message` (or requests access / logs); the message it sets,
if any, is supplied by the environment. -/
def ensure_camera_permission (env : TickEnv) (s : AppState) : AppState :=
  match env.permMsg with
  | some m => { s with camera_error_message := some m }
  | none => s

/-- `self.cap = self._open_camera()` (app.py:189, 238-250): on
permission-denied or open failure `self.cap` becomes `None` and the
corresponding error message is set; on success a live capture is held. -/
def open_camera (env : TickEnv) (s : AppState) : AppState :=
  match env.openOutcome with
  | OpenOutcome.permissionDenied =>
      { s with cap := false, camera_error_message := some permissionDeniedMsg }
  | OpenOutcome.opened => { s with cap := true }
  | OpenOutcome.failed =>
      { s with cap := false, camera_error_message := some checkPermissionMsg }

/-- `_ensure_segmenter_ready` (app.py:357-404): returns `True`
immediately when the segmenter already exists; otherwise attempts
construction, and on each failure mode sets `camera_error_message` and
renders a placeholder with that message before returning `False`. -/
def ensure_segmenter_ready (env : TickEnv) (s : AppState) : Bool × AppState :=
  if s.segmenter then (true, s)
  else
    match env.segInit with
    | SegInitOutcome.constructed => (true, { s with segmenter := true })
    | SegInitOutcome.modelNotFound res fw =>
        let msg := modelNotFoundMsg res fw
        (false, render_placeholder msg { s with camera_error_message := some msg })
    | SegInitOutcome.fileNotFound =>
        (false, render_placeholder modelMissingMsg
          { s with camera_error_message := some modelMissingMsg })
    | SegInitOutcome.initError =>
        (false, render_placeholder segInitFailedMsg
          { s with camera_error_message := some segInitFailedMsg })

/-- The body of `update_frame` inside the `try` block (app.py:184-221).
An `Except.error` models an unexpected exception escaping the body (the
injection point `raiseMid` stands for a failure anywhere in the
flip/zoom/resize/convert/segment/compose stage, app.py:197-221). -/
def tick_body (env : TickEnv) (s : AppState) : Except String (AppState × Obs) :=
  if s.cap && env.capLive then
    match env.readResult with
    | none => Except.ok (s, ⟨false, none⟩)
    | some frame0 =>
        if env.raiseMid then Except.error "update_frame failed"
        else
          let frame1 := hflip frame0
          let frame2 := apply_zoom ((env.zoomValue : ℚ) / 100) frame1
          let frame3 := env.resize s.labelW s.labelH frame2
          if s.cutout_enabled then
            match ensure_segmenter_ready env s with
            | (false, s1) => Except.ok (s1, ⟨false, s1.camera_error_message⟩)
            | (true, s1) =>
                let rgb := cvtBGR2RGB frame3
                match env.segMask with
                | none => Except.ok (s1, ⟨false, none⟩)
                | some mask =>
                    Except.ok
                      ({ s1 with displayed := Display.rgbaImage (composeRGBA rgb mask) },
                       ⟨false, none⟩)
          else
            Except.ok
              ({ s with displayed := Display.rgbImage (cvtBGR2RGB frame3) },
               ⟨false, none⟩)
  else
    let s1 := { s with open_retry_counter := s.open_retry_counter + 1 }
    if s1.open_retry_counter % 30 = 0 then
      let s2 := ensure_camera_permission env s1
      let s3 := open_camera env s2
      let msg := pyOrElse s3.camera_error_message defaultCameraMsg
      Except.ok (render_placeholder msg s3, ⟨true, some msg⟩)
    else
      let msg := pyOrElse s1.camera_error_message defaultCameraMsg
      Except.ok (render_placeholder msg s1, ⟨false, some msg⟩)

/-- `update_frame` (app.py:183-224): the body wrapped in the
`try/except Exception` handler, which logs and renders the generic error
placeholder.  Total: no exception propagates out of a tick. -/
def update_frame (env : TickEnv) (s : AppState) : AppState × Obs :=
  match tick_body env s with
  | Except.ok r => r
  | Except.error _ => (render_placeholder genericErrorMsg s, ⟨false, some genericErrorMsg⟩)

/-- `toggle_cutout` (app.py:311-318): enabling requires
`_ensure_segmenter_ready()` to succeed within the same event; disabling
is unconditional. -/
def toggle_cutout (env : TickEnv) (s : AppState) : AppState :=
  if s.cutout_enabled then { s with cutout_enabled := false }
  else
    match ensure_segmenter_ready env s with
    | (false, s1) => s1
    | (true, s1) => { s1 with cutout_enabled := true }

/-- `toggle_shape` (app.py:306-309): flips the shape flag (the clip mask
applied to the label is a presentation concern). -/
def toggle_shape (s : AppState) : AppState :=
  { s with shape := if s.shape = Shape.square then Shape.circle else Shape.square }

/-- `on_zoom_change` (app.py:320-322) only updates the zoom label text;
the zoom value itself lives in the scrollbar and is re-read each tick. -/
def on_zoom_change (_v : Nat) (s : AppState) : AppState := s

/-- The events that mutate `CameraOverlay` state after construction. -/
inductive Event where
  | tick (env : TickEnv)
  | toggleCutout (env : TickEnv)
  | toggleShape
  | zoomChange (v : Nat)

/-- One event step of the application state machine. -/
def step : Event → AppState → AppState
  | Event.tick env, s => (update_frame env s).1
  | Event.toggleCutout env, s => toggle_cutout env s
  | Event.toggleShape, s => toggle_shape s
  | Event.zoomChange v, s => on_zoom_change v s

/-- States reachable from construction: `__init__` (app.py:34-132) leaves
`cutout_enabled = False` and `segmenter = None` regardless of the camera
outcome, then events are applied. -/
inductive Reachable : AppState → Prop
  | init (s : AppState) (h1 : s.cutout_enabled = false) (h2 : s.segmenter = false) :
      Reachable s
  | step (e : Event) (s : AppState) : Reachable s → Reachable (step e s)

/-- A run of consecutive ticks: final state plus the per-tick observations. -/
def runTicks : List TickEnv → AppState → AppState × List Obs
  | [], s => (s, [])
  | e :: es, s =>
      let r := update_frame e s
      let rest := runTicks es r.1
      (rest.1, r.2 :: rest.2)

/-- The error message attached to each failing segmenter-construction
outcome (`none` for the successful one); these are exactly the messages
set by the failure branches of `_ensure_segmenter_ready`. -/
def segInitFailMessage : SegInitOutcome → Option String
  | SegInitOutcome.constructed => none
  | SegInitOutcome.modelNotFound res fw => some (modelNotFoundMsg res fw)
  | SegInitOutcome.fileNotFound => some modelMissingMsg
  | SegInitOutcome.initError => some segInitFailedMsg

/-! ### Concrete fixtures used by witness theorems -/

/-- Concrete frame used by witnesses. -/
def witFrame : Frame := ⟨5, 4, fun x y => (x, y, x + y)⟩

/-- A live state: device open, cutout off, segmenter not constructed. -/
def witLiveState : AppState :=
  ⟨Shape.square, false, false, none, true, 0, 320, 320, Display.empty⟩

/-- A down state: no capture device held, retry counter at zero. -/
def witDownState : AppState :=
  ⟨Shape.square, false, false, none, false, 0, 320, 320, Display.empty⟩

/-- A tick environment whose device read fails. -/
def witReadFailEnv : TickEnv :=
  ⟨true, none, false, 200, fun _ _ g => g, OpenOutcome.failed, none,
   SegInitOutcome.constructed, none⟩

/-- A tick environment that raises inside the pipeline body. -/
def witRaiseEnv : TickEnv :=
  ⟨true, some witFrame, true, 200, fun _ _ g => g, OpenOutcome.failed, none,
   SegInitOutcome.constructed, none⟩

/-- A tick environment in which segmenter construction raises
`FileNotFoundError`. -/
def witSegFailEnv : TickEnv :=
  ⟨true, none, false, 200, fun _ _ g => g, OpenOutcome.failed, none,
   SegInitOutcome.fileNotFound, none⟩

/-- A tick environment in which segmenter construction succeeds. -/
def witSegOkEnv : TickEnv :=
  ⟨true, none, false, 200, fun _ _ g => g, OpenOutcome.failed, none,
   SegInitOutcome.constructed, none⟩

/-- A successful-read tick environment (no raise, no cutout mask needed). -/
def witMirrorEnv : TickEnv :=
  ⟨true, some witFrame, false, 200, fun _ _ g => g, OpenOutcome.failed, none,
   SegInitOutcome.constructed, none⟩

/-- A perpetually-unavailable tick environment: the device is down and
every reopen attempt fails. -/
def witDegEnv : TickEnv :=
  ⟨false, none, false, 200, fun _ _ g => g, OpenOutcome.failed, none,
   SegInitOutcome.constructed, none⟩

/-! ### Helper lemmas -/

theorem placeholderLoop_length (ls : List String) (y : Nat) :
    (placeholderLoop ls y).length = ls.length := by
  induction ls generalizing y with
  | nil => rfl
  | cons l ls ih => simp [placeholderLoop, ih]

theorem placeholderLoop_map_fst (ls : List String) (y : Nat) :
    (placeholderLoop ls y).map Prod.fst = ls.map (fun l => l.take 64) := by
  induction ls generalizing y with
  | nil => rfl
  | cons l ls ih => simp [placeholderLoop, ih]

theorem placeholderLoop_get_snd (ls : List String) (y i : Nat)
    (h : i < (placeholderLoop ls y).length) :
    ((placeholderLoop ls y).get ⟨i, h⟩).2 = y + 26 * i := by
  induction ls generalizing y i with
  | nil => simp [placeholderLoop] at h
  | cons l ls ih =>
      cases i with
      | zero => simp [placeholderLoop]
      | succ j =>
          have hj : j < (placeholderLoop ls (y + 26)).length := by
            simpa [placeholderLoop] using h
          show ((placeholderLoop ls (y + 26)).get ⟨j, hj⟩).2 = y + 26 * (j + 1)
          rw [ih (y + 26) j hj]
          omega

/-! ### Claim theorems -/

/-- C1: with a mask, the composited bitmap's alpha channel takes only the
values 0 and 255, equal to 255 exactly where the mask value is strictly
greater than 0.5; its RGB channels equal the colour-reordered input
frame's RGB channels at every pixel, regardless of that pixel's alpha
value. -/
theorem masked_composite_spec (f : Frame) (mask : Mask) (x y : Nat) :
    ((composeRGBA (cvtBGR2RGB f) mask).alpha x y = 255 ∨
      (composeRGBA (cvtBGR2RGB f) mask).alpha x y = 0) ∧
    ((composeRGBA (cvtBGR2RGB f) mask).alpha x y = 255 ↔ 1 / 2 < mask x y) ∧
    (composeRGBA (cvtBGR2RGB f) mask).rgb x y = (cvtBGR2RGB f).pix x y ∧
    (composeRGBA (cvtBGR2RGB f) mask).rgb x y
      = ((f.pix x y).2.2, (f.pix x y).2.1, (f.pix x y).1) := by
  refine ⟨?_, ?_, rfl, rfl⟩ <;> by_cases h : 1 / 2 < mask x y
  · exact Or.inl (by simp only [composeRGBA, binarizeAlpha, if_pos h])
  · exact Or.inr (by simp only [composeRGBA, binarizeAlpha, if_neg h])
  · have ha : (composeRGBA (cvtBGR2RGB f) mask).alpha x y = 255 := by
      simp only [composeRGBA, binarizeAlpha, if_pos h]
    exact iff_of_true ha h
  · have ha : (composeRGBA (cvtBGR2RGB f) mask).alpha x y = 0 := by
      simp only [composeRGBA, binarizeAlpha, if_neg h]
    rw [ha]
    exact iff_of_false (by decide) h

/-- C1 witness: the compositing property at a concrete frame, mask and
pixel. -/
theorem masked_composite_spec_witness :
    ((composeRGBA (cvtBGR2RGB witFrame) (fun _ _ => 1)).alpha 2 1 = 255 ∨
      (composeRGBA (cvtBGR2RGB witFrame) (fun _ _ => 1)).alpha 2 1 = 0) ∧
    ((composeRGBA (cvtBGR2RGB witFrame) (fun _ _ => 1)).alpha 2 1 = 255 ↔
      1 / 2 < (fun _ _ => (1 : ℚ)) 2 1) ∧
    (composeRGBA (cvtBGR2RGB witFrame) (fun _ _ => 1)).rgb 2 1
      = (cvtBGR2RGB witFrame).pix 2 1 ∧
    (composeRGBA (cvtBGR2RGB witFrame) (fun _ _ => 1)).rgb 2 1
      = ((witFrame.pix 2 1).2.2, (witFrame.pix 2 1).2.1, (witFrame.pix 2 1).1) :=
  masked_composite_spec witFrame (fun _ _ => 1) 2 1

/-- C2: a zoom factor at most 1.0 leaves the frame untouched
(app.py:326-327). -/
theorem apply_zoom_le_one_id (f : Frame) (zoom : ℚ) (h : zoom ≤ 1) :
    apply_zoom zoom f = f := by
  unfold apply_zoom
  rw [if_pos h]

/-- C2 witness. -/
theorem apply_zoom_le_one_id_witness :
    (1 : ℚ) ≤ 1 ∧ apply_zoom 1 witFrame = witFrame :=
  ⟨le_refl 1, apply_zoom_le_one_id witFrame 1 (le_refl 1)⟩

/-- C3: a zoom factor strictly above 1.0 produces the center crop of size
`max 1 ⌊W/z⌋ × max 1 ⌊H/z⌋` with origin `((W-cropW)/2, (H-cropH)/2)`
(integer division, so the top-left margin never exceeds the
bottom-right margin), and the crop fits inside the frame. -/
theorem apply_zoom_center_crop (f : Frame) (zoom : ℚ) (hz : 1 < zoom)
    (hw : 1 ≤ f.width) (hh : 1 ≤ f.height) :
    (apply_zoom zoom f).width = max 1 (Int.toNat ⌊(f.width : ℚ) / zoom⌋) ∧
    (apply_zoom zoom f).height = max 1 (Int.toNat ⌊(f.height : ℚ) / zoom⌋) ∧
    (apply_zoom zoom f).width ≤ f.width ∧
    (apply_zoom zoom f).height ≤ f.height ∧
    (∀ x y, (apply_zoom zoom f).pix x y =
        f.pix ((f.width - (apply_zoom zoom f).width) / 2 + x)
          ((f.height - (apply_zoom zoom f).height) / 2 + y)) ∧
    2 * ((f.width - (apply_zoom zoom f).width) / 2)
      ≤ f.width - (apply_zoom zoom f).width ∧
    2 * ((f.height - (apply_zoom zoom f).height) / 2)
      ≤ f.height - (apply_zoom zoom f).height := by
  have hz' : ¬ zoom ≤ 1 := not_le.mpr hz
  have key : ∀ n : Nat, Int.toNat ⌊(n : ℚ) / zoom⌋ ≤ n := by
    intro n
    have h1 : (n : ℚ) / zoom ≤ (n : ℚ) :=
      div_le_self (by positivity) hz.le
    have h2 : ⌊(n : ℚ) / zoom⌋ ≤ (n : ℤ) := by
      calc ⌊(n : ℚ) / zoom⌋ ≤ ⌊(n : ℚ)⌋ := Int.floor_le_floor h1
        _ = (n : ℤ) := Int.floor_natCast n
    exact Int.toNat_le.mpr h2
  unfold apply_zoom
  rw [if_neg hz']
  refine ⟨rfl, rfl, max_le hw (key f.width), max_le hh (key f.height),
    fun x y => rfl, ?_, ?_⟩ <;> omega

/-- C3 witness. -/
theorem apply_zoom_center_crop_witness :
    (1 : ℚ) < 2 ∧ 1 ≤ witFrame.width ∧ 1 ≤ witFrame.height ∧
    ((apply_zoom 2 witFrame).width = max 1 (Int.toNat ⌊(witFrame.width : ℚ) / 2⌋) ∧
     (apply_zoom 2 witFrame).height = max 1 (Int.toNat ⌊(witFrame.height : ℚ) / 2⌋) ∧
     (apply_zoom 2 witFrame).width ≤ witFrame.width ∧
     (apply_zoom 2 witFrame).height ≤ witFrame.height ∧
     (∀ x y, (apply_zoom 2 witFrame).pix x y =
         witFrame.pix ((witFrame.width - (apply_zoom 2 witFrame).width) / 2 + x)
           ((witFrame.height - (apply_zoom 2 witFrame).height) / 2 + y)) ∧
     2 * ((witFrame.width - (apply_zoom 2 witFrame).width) / 2)
       ≤ witFrame.width - (apply_zoom 2 witFrame).width ∧
     2 * ((witFrame.height - (apply_zoom 2 witFrame).height) / 2)
       ≤ witFrame.height - (apply_zoom 2 witFrame).height) :=
  ⟨by norm_num, by decide, by decide,
   apply_zoom_center_crop witFrame 2 (by norm_num) (by decide) (by decide)⟩

set_option maxRecDepth 4000 in
/-- C7: the placeholder renderer draws at most the first 6 lines of the
message, each truncated to its first 64 characters, at the fixed line
height 26 starting from `y = 24`; for the empty message it draws exactly
the single literal line "error". -/
theorem render_placeholder_ops_spec (message : String) :
    (render_placeholder_ops message).length ≤ 6 ∧
    (render_placeholder_ops message).map Prod.fst
      = ((placeholderLines message).take 6).map (fun l => l.take 64) ∧
    (∀ i, (h : i < (render_placeholder_ops message).length) →
      ((render_placeholder_ops message).get ⟨i, h⟩).2 = 24 + 26 * i) ∧
    (message = "" → render_placeholder_ops message = [("error", 24)]) := by
  refine ⟨?_, ?_, ?_, ?_⟩
  · rw [render_placeholder_ops, placeholderLoop_length]
    exact List.length_take_le 6 (placeholderLines message)
  · rw [render_placeholder_ops, placeholderLoop_map_fst]
  · intro i h
    exact placeholderLoop_get_snd _ 24 i h
  · intro h
    subst h
    rfl

/-- C7 witness: a 10-line message. -/
theorem render_placeholder_ops_spec_witness :
    (render_placeholder_ops "a\nb\nc\nd\ne\nf\ng\nh\ni\nj").length ≤ 6 ∧
    (render_placeholder_ops "a\nb\nc\nd\ne\nf\ng\nh\ni\nj").map Prod.fst
      = ((placeholderLines "a\nb\nc\nd\ne\nf\ng\nh\ni\nj").take 6).map
          (fun l => l.take 64) ∧
    (∀ i, (h : i < (render_placeholder_ops "a\nb\nc\nd\ne\nf\ng\nh\ni\nj").length) →
      ((render_placeholder_ops "a\nb\nc\nd\ne\nf\ng\nh\ni\nj").get ⟨i, h⟩).2
        = 24 + 26 * i) ∧
    ("a\nb\nc\nd\ne\nf\ng\nh\ni\nj" = "" →
      render_placeholder_ops "a\nb\nc\nd\ne\nf\ng\nh\ni\nj" = [("error", 24)]) :=
  render_placeholder_ops_spec "a\nb\nc\nd\ne\nf\ng\nh\ni\nj"

theorem tick_read_fail_aux (env : TickEnv) (s : AppState)
    (hcap : s.cap = true) (hlive : env.capLive = true)
    (hread : env.readResult = none) :
    update_frame env s = (s, ⟨false, none⟩) := by
  unfold update_frame tick_body
  rw [hcap, hlive, hread]
  rfl

/-- C5: while the device is live, a failing `cap.read()` makes the tick a
no-op for any number of consecutive ticks: the state (device handle,
error message, retry counter, displayed bitmap) is unchanged, no reopen
is attempted and no placeholder is rendered; `update_frame` is a total
function, so no exception propagates. -/
theorem read_failure_noop (envs : List TickEnv) (s : AppState)
    (hcap : s.cap = true)
    (henv : ∀ e ∈ envs, e.capLive = true ∧ e.readResult = none) :
    (runTicks envs s).1 = s ∧
    ∀ o ∈ (runTicks envs s).2, o = ⟨false, none⟩ := by
  induction envs with
  | nil =>
      refine ⟨rfl, ?_⟩
      intro o ho
      cases ho
  | cons e es ih =>
      obtain ⟨h1, h2⟩ := henv e (List.mem_cons_self e es)
      have hstep : update_frame e s = (s, ⟨false, none⟩) :=
        tick_read_fail_aux e s hcap h1 h2
      have ihs := ih (fun e' he' => henv e' (List.mem_cons_of_mem e he'))
      refine ⟨?_, ?_⟩
      · show (runTicks es (update_frame e s).1).1 = s
        rw [hstep]
        exact ihs.1
      · show ∀ o ∈ (update_frame e s).2 :: (runTicks es (update_frame e s).1).2,
          o = ⟨false, none⟩
        rw [hstep]
        intro o ho
        rcases List.mem_cons.mp ho with h | h
        · rw [h]
        · exact ihs.2 o h

/-- C5 witness: two consecutive failing reads on a live device. -/
theorem read_failure_noop_witness :
    witLiveState.cap = true ∧
    (∀ e ∈ [witReadFailEnv, witReadFailEnv],
      e.capLive = true ∧ e.readResult = none) ∧
    (runTicks [witReadFailEnv, witReadFailEnv] witLiveState).1 = witLiveState ∧
    ∀ o ∈ (runTicks [witReadFailEnv, witReadFailEnv] witLiveState).2,
      o = ⟨false, none⟩ :=
  have h2 : ∀ e ∈ [witReadFailEnv, witReadFailEnv],
      e.capLive = true ∧ e.readResult = none := by
    intro e he
    rcases List.mem_cons.mp he with h | h
    · rw [h]; exact ⟨rfl, rfl⟩
    · rcases List.mem_cons.mp h with h | h
      · rw [h]; exact ⟨rfl, rfl⟩
      · cases h
  ⟨rfl, h2, (read_failure_noop _ _ rfl h2).1, (read_failure_noop _ _ rfl h2).2⟩

/-- C8: an exception escaping the tick body is caught by the
`try/except Exception` wrapper (which also logs it): the tick then
renders the generic error placeholder and returns normally —
`update_frame` is total, so no failure inside a tick propagates out of
it or terminates the process. -/
theorem tick_catches_exceptions (env : TickEnv) (s : AppState) (msg : String)
    (h : tick_body env s = Except.error msg) :
    update_frame env s
      = (render_placeholder genericErrorMsg s, ⟨false, some genericErrorMsg⟩) := by
  unfold update_frame
  rw [h]

/-- C8 witness: a tick whose pipeline body raises. -/
theorem tick_catches_exceptions_witness :
    tick_body witRaiseEnv witLiveState = Except.error "update_frame failed" ∧
    update_frame witRaiseEnv witLiveState
      = (render_placeholder genericErrorMsg witLiveState,
         ⟨false, some genericErrorMsg⟩) :=
  ⟨rfl, tick_catches_exceptions witRaiseEnv witLiveState "update_frame failed" rfl⟩

/-- C4: from a state with cutout disabled, `toggle_cutout` invokes
`_ensure_segmenter_ready` synchronously within the same event; if it
fails, `cutout_enabled` stays false (the toggle is rejected) and a
placeholder carrying the model's error message (also stored in
`camera_error_message`) has been rendered; if it succeeds,
`cutout_enabled` becomes true. -/
theorem toggle_cutout_spec (env : TickEnv) (s : AppState)
    (h : s.cutout_enabled = false) :
    ((ensure_segmenter_ready env s).1 = false →
      (toggle_cutout env s).cutout_enabled = false ∧
      ∃ m, segInitFailMessage env.segInit = some m ∧
        (toggle_cutout env s).camera_error_message = some m ∧
        (toggle_cutout env s).displayed = Display.placeholder m) ∧
    ((ensure_segmenter_ready env s).1 = true →
      (toggle_cutout env s).cutout_enabled = true) := by
  cases hseg : s.segmenter <;> cases hsi : env.segInit <;>
    simp [toggle_cutout, ensure_segmenter_ready, segInitFailMessage,
      render_placeholder, h, hseg, hsi]

/-- C4 witness: toggling on while segmenter construction raises
`FileNotFoundError`. -/
theorem toggle_cutout_spec_witness :
    witLiveState.cutout_enabled = false ∧
    (((ensure_segmenter_ready witSegFailEnv witLiveState).1 = false →
      (toggle_cutout witSegFailEnv witLiveState).cutout_enabled = false ∧
      ∃ m, segInitFailMessage witSegFailEnv.segInit = some m ∧
        (toggle_cutout witSegFailEnv witLiveState).camera_error_message = some m ∧
        (toggle_cutout witSegFailEnv witLiveState).displayed
          = Display.placeholder m) ∧
    ((ensure_segmenter_ready witSegFailEnv witLiveState).1 = true →
      (toggle_cutout witSegFailEnv witLiveState).cutout_enabled = true)) :=
  ⟨rfl, toggle_cutout_spec witSegFailEnv witLiveState rfl⟩

theorem ensure_segmenter_fields (env : TickEnv) (s : AppState) :
    (ensure_segmenter_ready env s).2.cutout_enabled = s.cutout_enabled ∧
    (s.segmenter = true → (ensure_segmenter_ready env s).2.segmenter = true) ∧
    ((ensure_segmenter_ready env s).1 = true →
      (ensure_segmenter_ready env s).2.segmenter = true) := by
  cases hseg : s.segmenter <;> cases hsi : env.segInit <;>
    simp [ensure_segmenter_ready, render_placeholder, hseg, hsi]

theorem update_frame_fields (env : TickEnv) (s : AppState) :
    (update_frame env s).1.cutout_enabled = s.cutout_enabled ∧
    (s.segmenter = true → (update_frame env s).1.segmenter = true) := by
  have hens := ensure_segmenter_fields env s
  unfold update_frame tick_body
  cases hc : s.cap && env.capLive
  · by_cases h30 : (s.open_retry_counter + 1) % 30 = 0 <;>
      cases hm : env.permMsg <;> cases ho : env.openOutcome <;>
        simp [ensure_camera_permission, open_camera, render_placeholder,
          h30, hm, ho]
  · cases hr : env.readResult
    · simp
    · cases hraise : env.raiseMid
      · cases hco : s.cutout_enabled
        · simp [render_placeholder]
        · rcases he : ensure_segmenter_ready env s with ⟨b, s1⟩
          rw [he] at hens
          have h1 : s1.cutout_enabled = s.cutout_enabled := hens.1
          have h2 : s.segmenter = true → s1.segmenter = true := hens.2.1
          cases b <;> cases hmask : env.segMask <;> simp [h1, h2, hco] <;>
            exact h2
      · simp [render_placeholder]

theorem toggle_cutout_inv (env : TickEnv) (u : AppState) :
    (toggle_cutout env u).cutout_enabled = true →
    (toggle_cutout env u).segmenter = true := by
  have hens := ensure_segmenter_fields env u
  cases hco : u.cutout_enabled
  · rcases he : ensure_segmenter_ready env u with ⟨b, s1⟩
    rw [he] at hens
    have h1 : s1.cutout_enabled = u.cutout_enabled := hens.1
    have h3 : b = true → s1.segmenter = true := hens.2.2
    cases b
    · simp [toggle_cutout, hco, he, h1]
    · simp [toggle_cutout, hco, he, h3 rfl]
  · simp [toggle_cutout, hco]

/-- C9: in every reachable state, `cutout_enabled = true` implies the
segmenter is already constructed — the flag is set only after a
successful `_ensure_segmenter_ready` and the segmenter is never torn
down — and when the segmenter is constructed,
`_ensure_segmenter_ready` succeeds immediately without changing the
state, so the per-tick readiness check can never fail after a toggle
has succeeded. -/
theorem cutout_invariant (s : AppState) (hs : Reachable s) :
    (s.cutout_enabled = true → s.segmenter = true) ∧
    ∀ env, s.segmenter = true → ensure_segmenter_ready env s = (true, s) := by
  refine ⟨?_, fun env hseg => by simp [ensure_segmenter_ready, hseg]⟩
  induction hs with
  | init u h1 h2 =>
      intro hc
      rw [h1] at hc
      cases hc
  | step e u hu ih =>
      cases e with
      | tick env =>
          intro hc
          have hf := update_frame_fields env u
          exact hf.2 (ih (by rw [← hf.1]; exact hc))
      | toggleCutout env => exact toggle_cutout_inv env u
      | toggleShape => exact fun hc => ih hc
      | zoomChange v => exact ih

/-- C9 witness: the state right after a successful cutout toggle. -/
theorem cutout_invariant_witness :
    Reachable (step (Event.toggleCutout witSegOkEnv) witLiveState) ∧
    ((step (Event.toggleCutout witSegOkEnv) witLiveState).cutout_enabled = true →
      (step (Event.toggleCutout witSegOkEnv) witLiveState).segmenter = true) ∧
    ∀ env, (step (Event.toggleCutout witSegOkEnv) witLiveState).segmenter = true →
      ensure_segmenter_ready env (step (Event.toggleCutout witSegOkEnv) witLiveState)
        = (true, step (Event.toggleCutout witSegOkEnv) witLiveState) :=
  have hr : Reachable (step (Event.toggleCutout witSegOkEnv) witLiveState) :=
    Reachable.step _ _ (Reachable.init witLiveState rfl rfl)
  ⟨hr, (cutout_invariant _ hr).1, (cutout_invariant _ hr).2⟩

/-- C10: every successfully read frame is horizontally mirrored
(`cv2.flip(frame, 1)`) before the zoom transform, resize and compositing
are applied, on both the cutout and non-cutout paths; `hflip` is the
mirror about the vertical axis, preserving the frame dimensions. -/
theorem frames_mirrored (env : TickEnv) (s : AppState) (f : Frame)
    (hcap : s.cap = true) (hlive : env.capLive = true)
    (hread : env.readResult = some f) (hraise : env.raiseMid = false) :
    (s.cutout_enabled = false →
      (update_frame env s).1.displayed =
        Display.rgbImage (cvtBGR2RGB (env.resize s.labelW s.labelH
          (apply_zoom ((env.zoomValue : ℚ) / 100) (hflip f))))) ∧
    (∀ mask, s.cutout_enabled = true → s.segmenter = true →
      env.segMask = some mask →
      (update_frame env s).1.displayed =
        Display.rgbaImage (composeRGBA (cvtBGR2RGB (env.resize s.labelW s.labelH
          (apply_zoom ((env.zoomValue : ℚ) / 100) (hflip f)))) mask)) ∧
    (∀ x y, (hflip f).pix x y = f.pix (f.width - 1 - x) y) ∧
    (hflip f).width = f.width ∧ (hflip f).height = f.height := by
  refine ⟨?_, ?_, fun x y => rfl, rfl, rfl⟩
  · intro hco
    simp [update_frame, tick_body, hcap, hlive, hread, hraise, hco]
  · intro mask hco hseg hmask
    simp [update_frame, tick_body, ensure_segmenter_ready,
      hcap, hlive, hread, hraise, hco, hseg, hmask]

/-- C10 witness: a successful non-cutout tick on a concrete frame. -/
theorem frames_mirrored_witness :
    witLiveState.cap = true ∧ witMirrorEnv.capLive = true ∧
    witMirrorEnv.readResult = some witFrame ∧ witMirrorEnv.raiseMid = false ∧
    ((witLiveState.cutout_enabled = false →
      (update_frame witMirrorEnv witLiveState).1.displayed =
        Display.rgbImage (cvtBGR2RGB (witMirrorEnv.resize witLiveState.labelW
          witLiveState.labelH
          (apply_zoom ((witMirrorEnv.zoomValue : ℚ) / 100) (hflip witFrame))))) ∧
    (∀ mask, witLiveState.cutout_enabled = true → witLiveState.segmenter = true →
      witMirrorEnv.segMask = some mask →
      (update_frame witMirrorEnv witLiveState).1.displayed =
        Display.rgbaImage (composeRGBA (cvtBGR2RGB (witMirrorEnv.resize
          witLiveState.labelW witLiveState.labelH
          (apply_zoom ((witMirrorEnv.zoomValue : ℚ) / 100) (hflip witFrame)))) mask)) ∧
    (∀ x y, (hflip witFrame).pix x y = witFrame.pix (witFrame.width - 1 - x) y) ∧
    (hflip witFrame).width = witFrame.width ∧
    (hflip witFrame).height = witFrame.height) :=
  ⟨rfl, rfl, rfl, rfl, frames_mirrored witMirrorEnv witLiveState witFrame rfl rfl rfl rfl⟩

theorem degraded_tick_aux (env : TickEnv) (s : AppState)
    (hcap : s.cap = false) (hopen : env.openOutcome ≠ OpenOutcome.opened) :
    (update_frame env s).1.cap = false ∧
    (update_frame env s).1.open_retry_counter = s.open_retry_counter + 1 ∧
    ((update_frame env s).2.reopenAttempted = true ↔
      (s.open_retry_counter + 1) % 30 = 0) ∧
    ∃ m, (update_frame env s).2.placeholderRendered = some m := by
  unfold update_frame tick_body
  rw [hcap]
  by_cases h30 : (s.open_retry_counter + 1) % 30 = 0
  · cases ho : env.openOutcome
    · cases hm : env.permMsg <;>
        simp [ensure_camera_permission, open_camera, render_placeholder,
          h30, hm, ho]
    · exact absurd ho hopen
    · cases hm : env.permMsg <;>
        simp [ensure_camera_permission, open_camera, render_placeholder,
          h30, hm, ho]
  · simp [render_placeholder, h30, hcap]

/-- C6: with no device held and every reopen attempt failing, each tick
increments the retry counter by exactly one, the permission re-check
plus reopen attempt occurs exactly on the ticks whose (incremented)
counter is a multiple of 30 — counting from startup, ticks 30, 60, 90,
… and no others — and a placeholder is rendered on every such degraded
tick. -/
theorem retry_cadence (envs : List TickEnv) (s : AppState)
    (hcap : s.cap = false)
    (hfail : ∀ e ∈ envs, e.openOutcome ≠ OpenOutcome.opened) :
    (runTicks envs s).1.open_retry_counter = s.open_retry_counter + envs.length ∧
    (runTicks envs s).2.length = envs.length ∧
    ∀ k, (hk : k < (runTicks envs s).2.length) →
      ((((runTicks envs s).2.get ⟨k, hk⟩).reopenAttempted = true) ↔
        (s.open_retry_counter + k + 1) % 30 = 0) ∧
      ∃ m, ((runTicks envs s).2.get ⟨k, hk⟩).placeholderRendered = some m := by
  revert hcap hfail
  induction envs generalizing s with
  | nil =>
      intro hcap hfail
      exact ⟨rfl, rfl, fun k hk => absurd hk (Nat.not_lt_zero k)⟩
  | cons e es ih =>
      intro hcap hfail
      have hstep := degraded_tick_aux e s hcap (hfail e (List.mem_cons_self e es))
      have ihs := ih (update_frame e s).1 hstep.1
        (fun e' he' => hfail e' (List.mem_cons_of_mem e he'))
      refine ⟨?_, ?_, ?_⟩
      · show (runTicks es (update_frame e s).1).1.open_retry_counter
          = s.open_retry_counter + (es.length + 1)
        rw [ihs.1, hstep.2.1]
        omega
      · show ((update_frame e s).2 :: (runTicks es (update_frame e s).1).2).length
          = es.length + 1
        rw [List.length_cons, ihs.2.1]
      · intro k hk
        cases k with
        | zero => exact ⟨hstep.2.2.1, hstep.2.2.2⟩
        | succ j =>
            have hj : j < (runTicks es (update_frame e s).1).2.length := by
              have hk' : j + 1 < (runTicks es (update_frame e s).1).2.length + 1 := hk
              omega
            have hrec := ihs.2.2 j hj
            refine ⟨?_, hrec.2⟩
            have harith : s.open_retry_counter + (j + 1) + 1
                = (update_frame e s).1.open_retry_counter + j + 1 := by
              rw [hstep.2.1]
              omega
            rw [harith]
            exact hrec.1

/-- C6 witness: 31 consecutive degraded ticks from startup. -/
theorem retry_cadence_witness :
    witDownState.cap = false ∧
    (∀ e ∈ List.replicate 31 witDegEnv, e.openOutcome ≠ OpenOutcome.opened) ∧
    ((runTicks (List.replicate 31 witDegEnv) witDownState).1.open_retry_counter
        = witDownState.open_retry_counter + (List.replicate 31 witDegEnv).length ∧
      (runTicks (List.replicate 31 witDegEnv) witDownState).2.length
        = (List.replicate 31 witDegEnv).length ∧
      ∀ k, (hk : k <
          (runTicks (List.replicate 31 witDegEnv) witDownState).2.length) →
        ((((runTicks (List.replicate 31 witDegEnv) witDownState).2.get
              ⟨k, hk⟩).reopenAttempted = true) ↔
          (witDownState.open_retry_counter + k + 1) % 30 = 0) ∧
        ∃ m, ((runTicks (List.replicate 31 witDegEnv) witDownState).2.get
            ⟨k, hk⟩).placeholderRendered = some m) :=
  have hf : ∀ e ∈ List.replicate 31 witDegEnv,
      e.openOutcome ≠ OpenOutcome.opened := by
    intro e he
    rw [List.eq_of_mem_replicate he]
    decide
  ⟨rfl, hf, retry_cadence (List.replicate 31 witDegEnv) witDownState rfl hf⟩

end CameraApp
